import Mathlib

/-!
Shallow embedding of `src/openslide-decode-tiff-remote.c` (OpenSlide remote
TIFF decoder shim) and verification of its specification claims.

Modelling conventions:
* A byte stream (`GInputStream` / `GDataInputStream`) is a `List Nat` of the
  bytes remaining to be read.  `g_data_input_stream_read_byte` returns 0 on a
  short read (GLib contract), `g_data_input_stream_read_uint16` returns 0 on a
  short read.
* `GError **err` out-parameters are modelled as an `Option String` field of
  the result: `none` means no error object was set by the call.
* External library behaviour that the code merely branches on
  (`TIFFClientOpen` succeeding, `TIFFRGBAImageOK` / `TIFFRGBAImageBegin` /
  `TIFFRGBAImageGet` outcomes, `TIFFIsCODECConfigured`) is passed in as
  explicit parameters, so every theorem quantifies over all behaviours of
  those externals.
-/

namespace TiffRemote

/-- Model of `g_data_input_stream_read_byte`: returns the next byte and the
rest of the stream; on a short read (empty stream) it returns 0 (GLib returns 0
and sets the error). -/
def readByte : List Nat → Nat × List Nat
  | [] => (0, [])
  | b :: rest => (b, rest)

/-- The two byte orders selectable by the TIFF magic marker. -/
inductive ByteOrder where
  | be : ByteOrder
  | le : ByteOrder
deriving DecidableEq

/-- Model of `g_data_input_stream_read_uint16` with the stream's byte order
set: combines the next two bytes; on a short read it returns 0 (GLib returns
0 and sets the error). -/
def readUint16 (order : ByteOrder) : List Nat → Nat × List Nat
  | b0 :: b1 :: rest =>
      (match order with
       | ByteOrder.be => b0 * 256 + b1
       | ByteOrder.le => b0 + b1 * 256, rest)
  | s => (0, s)

/-- Outcome of `_openslide_tiff_open` once the underlying stream has been
successfully opened: whether a (non-NULL) `TIFF *` handle was returned,
the error set (if any), and whether the stream was closed and its wrapper
object unreferenced before returning. -/
structure TiffOpenOutcome where
  handle : Bool
  err : Option String
  streamClosed : Bool
  unrefed : Bool
deriving DecidableEq

/-- Embedding of `_openslide_tiff_open` (magic/version validation and
`TIFFClientOpen` call), starting from the point where the data stream has
been successfully opened.  `bytes` is the stream content, `tiffOpenOk` is
whether the external `TIFFClientOpen` returns a non-NULL handle. -/
def _openslide_tiff_open (uri : String) (bytes : List Nat)
    (tiffOpenOk : Bool) : TiffOpenOutcome :=
  let r0 := readByte bytes
  let byte_order := r0.1
  let r1 := readByte r0.2
  if r1.1 ≠ byte_order then
    ⟨false, some ("Not a TIFF file: " ++ uri), true, true⟩
  else if byte_order = 77 then
    -- case 'M': big endian
    let ver := (readUint16 ByteOrder.be r1.2).1
    if ver ≠ 42 ∧ ver ≠ 43 then
      ⟨false, some ("Not a TIFF file: " ++ uri), true, true⟩
    else if tiffOpenOk then
      ⟨true, none, false, false⟩
    else
      ⟨false, some ("Invalid TIFF: " ++ uri), true, true⟩
  else if byte_order = 73 then
    -- case 'I': little endian
    let ver := (readUint16 ByteOrder.le r1.2).1
    if ver ≠ 42 ∧ ver ≠ 43 then
      ⟨false, some ("Not a TIFF file: " ++ uri), true, true⟩
    else if tiffOpenOk then
      ⟨true, none, false, false⟩
    else
      ⟨false, some ("Invalid TIFF: " ++ uri), true, true⟩
  else if byte_order = 0 then
    ⟨false, some ("Couldn\x27t read TIFF magic number for " ++ uri), true, true⟩
  else
    ⟨false, some ("Not a TIFF file: " ++ uri), true, true⟩

/-- The open operation accepts the container header iff, with a decoder
library that opens successfully, it returns a handle. -/
def headerAccepted (bytes : List Nat) : Bool :=
  (_openslide_tiff_open "uri" bytes true).handle

/-- Modelled from the spec wording of claim C1 (refinement side): the first
two bytes are equal and both ASCII M (77) or both ASCII I (73), and the
following 16-bit word, read in the endianness selected by that marker,
equals 42 or 43; a stream shorter than 4 bytes is rejected. -/
def specHeaderAccept : List Nat → Bool
  | b0 :: b1 :: v0 :: v1 :: _ =>
      b0 = b1 && (b0 = 77 || b0 = 73) &&
      (let ver := if b0 = 77 then v0 * 256 + v1 else v0 + v1 * 256
       ver = 42 || ver = 43)
  | _ => false

/-- C1: the open operation accepts the container header if and only if the
first two bytes are equal and both are ASCII M or both ASCII I and the
following 16-bit word, read in the selected endianness, equals 42 or 43; any
other first-two-byte pair, any other version value, or a stream shorter than
4 bytes causes open to fail with an error and return no handle, for every
behaviour of the decoder-library open call. -/
theorem c1_header_accept_iff (bytes : List Nat) :
    headerAccepted bytes = specHeaderAccept bytes ∧
    (specHeaderAccept bytes = false → ∀ (uri : String) (tiffOpenOk : Bool),
      (_openslide_tiff_open uri bytes tiffOpenOk).handle = false ∧
      ((_openslide_tiff_open uri bytes tiffOpenOk).err).isSome = true) := by
  constructor
  · match bytes with
    | [] => rfl
    | [b0] =>
      simp only [headerAccepted, _openslide_tiff_open, readByte, readUint16,
        specHeaderAccept]
      by_cases h0 : b0 = 0 <;> (try simp_all) <;> (repeat' split) <;> (try simp_all) <;> omega
    | [b0, b1] =>
      simp only [headerAccepted, _openslide_tiff_open, readByte, readUint16,
        specHeaderAccept]
      by_cases h : b1 = b0 <;> by_cases h77 : b0 = 77 <;>
        by_cases h73 : b0 = 73 <;> by_cases h0 : b0 = 0 <;>
        (try simp_all) <;> (repeat' split) <;> (try simp_all) <;> omega
    | [b0, b1, v0] =>
      simp only [headerAccepted, _openslide_tiff_open, readByte, readUint16,
        specHeaderAccept]
      by_cases h : b1 = b0 <;> by_cases h77 : b0 = 77 <;>
        by_cases h73 : b0 = 73 <;> by_cases h0 : b0 = 0 <;>
        (try simp_all) <;> (repeat' split) <;> (try simp_all) <;> omega
    | b0 :: b1 :: v0 :: v1 :: rest =>
      simp only [headerAccepted, _openslide_tiff_open, readByte, readUint16,
        specHeaderAccept]
      by_cases h : b1 = b0 <;> by_cases h77 : b0 = 77 <;>
        by_cases h73 : b0 = 73 <;> by_cases h0 : b0 = 0 <;>
        (try simp_all) <;> (repeat' split) <;> (try simp_all) <;> omega
  · intro hrej uri tiffOpenOk
    match bytes with
    | [] =>
      simp [_openslide_tiff_open, readByte, readUint16]
    | [b0] =>
      simp only [specHeaderAccept] at hrej
      simp only [_openslide_tiff_open, readByte, readUint16]
      by_cases h0 : b0 = 0 <;> (try simp_all) <;> (repeat' split) <;> (try simp_all) <;> omega
    | [b0, b1] =>
      simp only [_openslide_tiff_open, readByte, readUint16]
      by_cases h : b1 = b0 <;> by_cases h77 : b0 = 77 <;>
        by_cases h73 : b0 = 73 <;> by_cases h0 : b0 = 0 <;>
        (try simp_all) <;> (repeat' split) <;> (try simp_all) <;> omega
    | [b0, b1, v0] =>
      simp only [_openslide_tiff_open, readByte, readUint16]
      by_cases h : b1 = b0 <;> by_cases h77 : b0 = 77 <;>
        by_cases h73 : b0 = 73 <;> by_cases h0 : b0 = 0 <;>
        (try simp_all) <;> (repeat' split) <;> (try simp_all) <;> omega
    | b0 :: b1 :: v0 :: v1 :: rest =>
      simp only [specHeaderAccept] at hrej
      simp only [_openslide_tiff_open, readByte, readUint16]
      by_cases h : b1 = b0 <;> by_cases h77 : b0 = 77 <;>
        by_cases h73 : b0 = 73 <;> by_cases h0 : b0 = 0 <;>
        (try simp_all) <;> (repeat' split) <;> (try simp_all) <;> omega

/-- C1 witness: the theorem applied at the concrete stream `[88, 89]`
(bytes X Y), which is rejected. -/
theorem c1_header_accept_iff_witness :
    headerAccepted [88, 89] = specHeaderAccept [88, 89] ∧
    ((_openslide_tiff_open "uri" [88, 89] true).handle = false ∧
      ((_openslide_tiff_open "uri" [88, 89] true).err).isSome = true) :=
  ⟨(c1_header_accept_iff [88, 89]).1,
   (c1_header_accept_iff [88, 89]).2 (by decide) "uri" true⟩

/-- C8: whenever `_openslide_tiff_open` returns no handle after the stream
was successfully opened (bad magic, bad version, short read, or
decoder-open failure), the stream has been closed and the wrapper object
unreferenced before the error return. -/
theorem c8_stream_closed_on_failure (uri : String) (bytes : List Nat)
    (tiffOpenOk : Bool)
    (hfail : (_openslide_tiff_open uri bytes tiffOpenOk).handle = false) :
    (_openslide_tiff_open uri bytes tiffOpenOk).streamClosed = true ∧
    (_openslide_tiff_open uri bytes tiffOpenOk).unrefed = true := by
  unfold _openslide_tiff_open at hfail ⊢
  repeat' split <;> simp_all

/-- C8 witness: the theorem applied at the concrete rejected stream
`[88, 89]`. -/
theorem c8_stream_closed_on_failure_witness :
    (_openslide_tiff_open "uri" [88, 89] true).streamClosed = true ∧
    (_openslide_tiff_open "uri" [88, 89] true).unrefed = true :=
  c8_stream_closed_on_failure "uri" [88, 89] true (by decide)

/-- Model of `GUINT32_SWAP_LE_BE`: reverse the four bytes of a 32-bit
value. -/
def swap32 (v : Nat) : Nat :=
  (v % 256) * 2 ^ 24 + (v / 2 ^ 8 % 256) * 2 ^ 16 +
    (v / 2 ^ 16 % 256) * 2 ^ 8 + (v / 2 ^ 24 % 256)

/-- The in-place pixel transform in `tiff_read_region`:
`val = GUINT32_SWAP_LE_BE(*p); *p = (val << 24) | (val >> 8)` on `uint32_t`
(the left shift wraps modulo 2^32). -/
def abgrToArgb (v : Nat) : Nat :=
  let val := swap32 v
  ((val <<< 24) % 2 ^ 32) ||| (val >>> 8)

/-- Behaviour of the external libtiff RGBA renderer for one call:
whether `TIFFRGBAImageOK` succeeds (and the diagnostic written to `emsg`
otherwise), whether `TIFFRGBAImageBegin` succeeds (and its diagnostic),
and the pixels `TIFFRGBAImageGet` writes into the destination
(`none` when it fails). -/
structure RegionEnv where
  rgbaOK : Bool
  okMsg : String
  beginOK : Bool
  beginMsg : String
  render : Option (List Nat)
deriving DecidableEq

/-- Result of `tiff_read_region`: the returned boolean, the destination
buffer contents on return, and the error set (if any). -/
structure RegionResult where
  ok : Bool
  dest : List Nat
  err : Option String
deriving DecidableEq

/-- Embedding of `tiff_read_region`: capability check, render begin,
render, and on success the in-place ABGR to ARGB conversion of the whole
`w*h` buffer; on render failure `memset(dest, 0, w * h * 4)`. -/
def tiff_read_region (env : RegionEnv) (dest : List Nat)
    (x y : Int) (w h : Nat) : RegionResult :=
  if !env.rgbaOK then
    ⟨false, dest, some ("Failure in TIFFRGBAImageOK: " ++ env.okMsg)⟩
  else if !env.beginOK then
    ⟨false, dest, some ("Failure in TIFFRGBAImageBegin: " ++ env.beginMsg)⟩
  else
    match env.render with
    | some pix => ⟨true, pix.map abgrToArgb, none⟩
    | none => ⟨false, List.replicate (w * h) 0,
        some "TIFFRGBAImageGet failed"⟩

/-- C2 counterexample: a region-decode call that fails in the
`TIFFRGBAImageOK` capability check returns failure but leaves the
destination buffer with its entry contents (here the non-zero pixel 5),
not zero-filled. -/
theorem c2_not_always_zeroed_cex :
    (tiff_read_region ⟨false, "x", true, "", none⟩ [5] 0 0 1 1).ok = false ∧
    (tiff_read_region ⟨false, "x", true, "", none⟩ [5] 0 0 1 1).dest = [5] ∧
    [5] ≠ List.replicate 1 (0 : Nat) := by
  refine ⟨rfl, rfl, by decide⟩

/-- C2 amended: whenever the render call itself (`TIFFRGBAImageGet`)
fails after the capability check and render initialization succeeded, the
call returns failure with the destination buffer entirely zero-filled
(`w*h` pixels of 0, i.e. every byte 0x00); failures of the capability
check or of render initialization instead leave the buffer untouched. -/
theorem c2_zero_fill_on_render_failure (env : RegionEnv) (dest : List Nat)
    (x y : Int) (w h : Nat)
    (hok : env.rgbaOK = true) (hbegin : env.beginOK = true)
    (hget : env.render = none) :
    (tiff_read_region env dest x y w h).ok = false ∧
    (tiff_read_region env dest x y w h).dest = List.replicate (w * h) 0 ∧
    (tiff_read_region env dest x y w h).err = some "TIFFRGBAImageGet failed" := by
  simp [tiff_read_region, hok, hbegin, hget]

/-- C2 amended witness: the theorem applied at a concrete failing render. -/
theorem c2_zero_fill_on_render_failure_witness :
    (tiff_read_region ⟨true, "", true, "", none⟩ [5] 0 0 1 1).ok = false ∧
    (tiff_read_region ⟨true, "", true, "", none⟩ [5] 0 0 1 1).dest =
      List.replicate 1 0 ∧
    (tiff_read_region ⟨true, "", true, "", none⟩ [5] 0 0 1 1).err =
      some "TIFFRGBAImageGet failed" :=
  c2_zero_fill_on_render_failure ⟨true, "", true, "", none⟩ [5] 0 0 1 1
    rfl rfl rfl

/-- C3: after a successful render the whole buffer is the renderer's
output with each 32-bit pixel v replaced by
`(swap32 v <<< 24 ||| swap32 v >>> 8) % 2^32` (byte swap then rotate right
by 8), and on packed-byte values this converts ABGR into ARGB. -/
theorem c3_abgr_to_argb (env : RegionEnv) (dest : List Nat) (x y : Int)
    (w h : Nat) (pix : List Nat)
    (hok : env.rgbaOK = true) (hbegin : env.beginOK = true)
    (hget : env.render = some pix) :
    ((tiff_read_region env dest x y w h).ok = true ∧
     (tiff_read_region env dest x y w h).dest =
       pix.map (fun v => ((swap32 v <<< 24) ||| (swap32 v >>> 8)) % 2 ^ 32)) ∧
    (∀ a b g r : Nat, a < 256 → b < 256 → g < 256 → r < 256 →
      abgrToArgb (a * 2 ^ 24 + b * 2 ^ 16 + g * 2 ^ 8 + r) =
        a * 2 ^ 24 + r * 2 ^ 16 + g * 2 ^ 8 + b) := by
  constructor
  · constructor
    · simp [tiff_read_region, hok, hbegin, hget]
    · simp only [tiff_read_region, hok, hbegin, hget, Bool.not_true,
        Bool.false_eq_true, if_false, ite_false]
      congr 1
      funext v
      simp only [abgrToArgb, Nat.shiftLeft_eq, Nat.shiftRight_eq_div_pow]
      have hs : swap32 v < 2 ^ 32 := by
        unfold swap32
        have h0 : v % 256 < 256 := Nat.mod_lt _ (by norm_num)
        have h1 : v / 2 ^ 8 % 256 < 256 := Nat.mod_lt _ (by norm_num)
        have h2 : v / 2 ^ 16 % 256 < 256 := Nat.mod_lt _ (by norm_num)
        have h3 : v / 2 ^ 24 % 256 < 256 := Nat.mod_lt _ (by norm_num)
        omega
      have hb : swap32 v / 2 ^ 8 < 2 ^ 24 := by omega
      have h1 := Nat.mul_add_lt_is_or hb (swap32 v % 2 ^ 8)
      have h2 := Nat.mul_add_lt_is_or hb (swap32 v)
      have hl : swap32 v * 2 ^ 24 % 2 ^ 32 = 2 ^ 24 * (swap32 v % 2 ^ 8) := by
        omega
      rw [hl, ← h1, Nat.mul_comm (swap32 v) (2 ^ 24), ← h2]
      omega
  · intro a b g r ha hb hg hr
    unfold abgrToArgb swap32
    have e0 : (a * 2 ^ 24 + b * 2 ^ 16 + g * 2 ^ 8 + r) % 256 = r := by omega
    have e1 : (a * 2 ^ 24 + b * 2 ^ 16 + g * 2 ^ 8 + r) / 2 ^ 8 % 256 = g := by
      omega
    have e2 : (a * 2 ^ 24 + b * 2 ^ 16 + g * 2 ^ 8 + r) / 2 ^ 16 % 256 = b := by
      omega
    have e3 : (a * 2 ^ 24 + b * 2 ^ 16 + g * 2 ^ 8 + r) / 2 ^ 24 % 256 = a := by
      omega
    rw [e0, e1, e2, e3]
    simp only [Nat.shiftLeft_eq, Nat.shiftRight_eq_div_pow]
    have hb2 : r * 2 ^ 16 + g * 2 ^ 8 + b < 2 ^ 24 := by omega
    have h3 := Nat.mul_add_lt_is_or hb2 a
    have hl2 : (r * 2 ^ 24 + g * 2 ^ 16 + b * 2 ^ 8 + a) * 2 ^ 24 % 2 ^ 32 =
        2 ^ 24 * a := by omega
    have hd : (r * 2 ^ 24 + g * 2 ^ 16 + b * 2 ^ 8 + a) / 2 ^ 8 =
        r * 2 ^ 16 + g * 2 ^ 8 + b := by omega
    rw [hl2, hd, ← h3]
    omega

/-- C3 witness: the theorem applied at a concrete successful render of
one pixel with value 258. -/
theorem c3_abgr_to_argb_witness :
    (tiff_read_region ⟨true, "", true, "", some [258]⟩ [7] 0 0 1 1).ok =
      true ∧
    (tiff_read_region ⟨true, "", true, "", some [258]⟩ [7] 0 0 1 1).dest =
      [258].map
        (fun v => ((swap32 v <<< 24) ||| (swap32 v >>> 8)) % 2 ^ 32) :=
  (c3_abgr_to_argb ⟨true, "", true, "", some [258]⟩ [7] 0 0 1 1 [258]
    rfl rfl rfl).1

/-- C9: when the preliminary RGBA capability check or render
initialization fails, the call returns an error with the destination
buffer unchanged from its value at entry; zero-filling happens only in
the branch where the render call itself fails after successful
initialization. -/
theorem c9_early_failure_frame (env : RegionEnv) (dest : List Nat)
    (x y : Int) (w h : Nat) :
    ((env.rgbaOK = false ∨ env.beginOK = false) →
      (tiff_read_region env dest x y w h).ok = false ∧
      (tiff_read_region env dest x y w h).dest = dest ∧
      ((tiff_read_region env dest x y w h).err).isSome = true) ∧
    (env.rgbaOK = true → env.beginOK = true → env.render = none →
      (tiff_read_region env dest x y w h).dest = List.replicate (w * h) 0) := by
  constructor
  · intro hfail
    unfold tiff_read_region
    rcases hfail with hf | hf <;> rw [hf] <;> simp <;>
      cases henv : env.rgbaOK <;> simp [henv]
  · intro hok hbegin hget
    simp [tiff_read_region, hok, hbegin, hget]

/-- C9 witness: the theorem applied at a concrete failing capability
check (buffer `[7]` untouched) and at a concrete failing render. -/
theorem c9_early_failure_frame_witness :
    ((tiff_read_region ⟨false, "m", true, "", none⟩ [7] 0 0 1 1).ok = false ∧
     (tiff_read_region ⟨false, "m", true, "", none⟩ [7] 0 0 1 1).dest = [7] ∧
     ((tiff_read_region ⟨false, "m", true, "", none⟩ [7] 0 0 1 1).err).isSome
       = true) ∧
    (tiff_read_region ⟨true, "", true, "", none⟩ [7] 0 0 1 1).dest =
      List.replicate 1 0 :=
  ⟨(c9_early_failure_frame ⟨false, "m", true, "", none⟩ [7] 0 0 1 1).1
      (Or.inl rfl),
   (c9_early_failure_frame ⟨true, "", true, "", none⟩ [7] 0 0 1 1).2
      rfl rfl rfl⟩

/-- A TIFF directory as seen through `TIFFGetField`: the tags the module
reads, each possibly absent. -/
structure TiffDir where
  imageWidth : Option Nat
  imageLength : Option Nat
  compression : Option Nat
deriving DecidableEq

/-- A `TIFF *` handle for tag access: its list of directories (a directory
is selected by index; `TIFFSetDirectory`, wrapped by the external
`_openslide_tiff_set_dir`, succeeds exactly for valid indices). -/
structure TIFFState where
  dirs : List TiffDir
deriving DecidableEq

/-- The libtiff tag identifier `TIFFTAG_IMAGEWIDTH`. -/
def TIFFTAG_IMAGEWIDTH : Nat := 256

/-- The libtiff tag identifier `TIFFTAG_IMAGELENGTH`. -/
def TIFFTAG_IMAGELENGTH : Nat := 257

/-- The libtiff tag identifier `TIFFTAG_COMPRESSION`. -/
def TIFFTAG_COMPRESSION : Nat := 259

/-- The error message produced by the `GET_FIELD_OR_FAIL` macro:
`"Cannot get required TIFF tag: %d"`. -/
def tagErrMsg (tag : Nat) : String :=
  "Cannot get required TIFF tag: " ++ toString tag

/-- The `struct associated_image` descriptor: expected width/height
captured at discovery (`base.w` / `base.h`), the backing `TIFF *`
(possibly NULL), and the stored directory index. -/
structure AssocImage where
  w : Nat
  h : Nat
  tiff : Option TIFFState
  directory : Nat
deriving DecidableEq

/-- Outcome of an associated-image decode call: the returned boolean, the
destination buffer on return, the error set (if any), plus a trace of what
the call did: which directory index `_openslide_tiff_set_dir` was asked to
select (`none` if it was never called), which tags were read via
`TIFFGetField`, and the `(x, y, w, h)` arguments `tiff_read_region` was
invoked with (`none` if it was never invoked). -/
structure AssocDecodeOutcome where
  ok : Bool
  dest : List Nat
  err : Option String
  dirSelected : Option Nat
  tagsRead : List Nat
  regionCall : Option (Int × Int × Nat × Nat)
deriving DecidableEq

/-- Embedding of `_get_associated_image_data`: select the stored
directory, re-read the width/height tags, compare against the dimensions
captured at discovery, and on match decode the full `(0,0,w,h)` rectangle
via `tiff_read_region`.  `Modelled from the spec:` the external
`_openslide_tiff_set_dir` (declared in `openslide-decode-tiff.h`, body not
in this repository sample) selects directory `i` on the handle and
succeeds exactly when `i` is a valid directory index. -/
def _get_associated_image_data (tiff : TIFFState) (img : AssocImage)
    (dest : List Nat) (env : RegionEnv) : AssocDecodeOutcome :=
  match tiff.dirs[img.directory]? with
  | none =>
      ⟨false, dest, some "Cannot set TIFF directory", some img.directory,
        [], none⟩
  | some d =>
      match d.imageWidth with
      | none =>
          ⟨false, dest, some (tagErrMsg TIFFTAG_IMAGEWIDTH),
            some img.directory, [TIFFTAG_IMAGEWIDTH], none⟩
      | some width =>
          match d.imageLength with
          | none =>
              ⟨false, dest, some (tagErrMsg TIFFTAG_IMAGELENGTH),
                some img.directory, [TIFFTAG_IMAGEWIDTH, TIFFTAG_IMAGELENGTH],
                none⟩
          | some height =>
              if img.w != width || img.h != height then
                ⟨false, dest,
                  some ("Unexpected associated image size: expected " ++
                    toString img.w ++ "x" ++ toString img.h ++ ", got " ++
                    toString width ++ "x" ++ toString height),
                  some img.directory,
                  [TIFFTAG_IMAGEWIDTH, TIFFTAG_IMAGELENGTH], none⟩
              else
                let r := tiff_read_region env dest 0 0 width height
                ⟨r.ok, r.dest, r.err, some img.directory,
                  [TIFFTAG_IMAGEWIDTH, TIFFTAG_IMAGELENGTH],
                  some (0, 0, width, height)⟩

/-- Embedding of `get_associated_image_data` (the `get_argb_data` op): if
the backing `TIFF *` is NULL the call returns false immediately without
touching anything; otherwise it delegates to
`_get_associated_image_data`. -/
def get_associated_image_data (img : AssocImage) (dest : List Nat)
    (env : RegionEnv) : AssocDecodeOutcome :=
  match img.tiff with
  | none => ⟨false, dest, none, none, [], none⟩
  | some tiff => _get_associated_image_data tiff img dest env

/-- Outcome of associated-image construction: the returned boolean, the
associated-image registry (`osr->associated_images`, newest binding
first) on return, the error set (if any), and a trace of the directory
selection and tag reads performed. -/
structure AddOutcome where
  ok : Bool
  registry : List (String × AssocImage)
  err : Option String
  dirSelected : Option Nat
  tagsRead : List Nat
deriving DecidableEq

/-- Embedding of `_add_associated_image`: select the directory, read the
width, height and compression tags, check the codec is configured
(`TIFFIsCODECConfigured`, passed in as `codecOK`), then build the
descriptor and insert it into the registry under `name`.  `Modelled from
the spec:` the external `_openslide_tiff_set_dir` succeeds exactly when
the index is a valid directory index. -/
def _add_associated_image (codecOK : Nat → Bool)
    (osr : List (String × AssocImage)) (name : String) (dir : Nat)
    (tiff : TIFFState) : AddOutcome :=
  match tiff.dirs[dir]? with
  | none => ⟨false, osr, some "Cannot set TIFF directory", some dir, []⟩
  | some d =>
      match d.imageWidth with
      | none =>
          ⟨false, osr, some (tagErrMsg TIFFTAG_IMAGEWIDTH), some dir,
            [TIFFTAG_IMAGEWIDTH]⟩
      | some w =>
          match d.imageLength with
          | none =>
              ⟨false, osr, some (tagErrMsg TIFFTAG_IMAGELENGTH), some dir,
                [TIFFTAG_IMAGEWIDTH, TIFFTAG_IMAGELENGTH]⟩
          | some h =>
              match d.compression with
              | none =>
                  ⟨false, osr, some (tagErrMsg TIFFTAG_COMPRESSION),
                    some dir,
                    [TIFFTAG_IMAGEWIDTH, TIFFTAG_IMAGELENGTH,
                      TIFFTAG_COMPRESSION]⟩
              | some compression =>
                  if !codecOK compression then
                    ⟨false, osr,
                      some ("Unsupported TIFF compression: " ++
                        toString compression),
                      some dir,
                      [TIFFTAG_IMAGEWIDTH, TIFFTAG_IMAGELENGTH,
                        TIFFTAG_COMPRESSION]⟩
                  else
                    ⟨true, (name, ⟨w, h, some tiff, dir⟩) :: osr, none,
                      some dir,
                      [TIFFTAG_IMAGEWIDTH, TIFFTAG_IMAGELENGTH,
                        TIFFTAG_COMPRESSION]⟩

/-- Embedding of `_openslide_tiff_add_associated_image_remote`: delegate
to `_add_associated_image` when the handle is non-NULL, then apply
`g_prefix_error` (which prepends the prefix when an error is present and
does nothing when `err` is empty).  `err0` is the caller's error state at
entry (NULL under the GError contract). -/
def _openslide_tiff_add_associated_image_remote (codecOK : Nat → Bool)
    (osr : List (String × AssocImage)) (name : String)
    (tiff : Option TIFFState) (dir : Nat) (err0 : Option String) :
    AddOutcome :=
  let inner : AddOutcome :=
    match tiff with
    | some t => _add_associated_image codecOK osr name dir t
    | none => ⟨false, osr, err0, none, []⟩
  { inner with
    err := inner.err.map
      (fun m => "Can\x27t read " ++ name ++ " associated image: " ++ m) }

/-- Model of the underlying `GInputStream` for the read callback: the
bytes of the resource, the current position, and whether the next read
fails with a stream error. -/
structure GStream where
  data : List Nat
  pos : Nat
  failing : Bool
deriving DecidableEq

/-- Model of `g_input_stream_read` (GLib contract): on error it returns
-1 and sets the `GError`; otherwise it returns the count of bytes
actually read, advancing the position. -/
def g_input_stream_read (s : GStream) (size : Nat) : Int × GStream :=
  if s.failing then (-1, s)
  else (((min size (s.data.length - s.pos) : Nat) : Int),
    { s with pos := s.pos + min size (s.data.length - s.pos) })

/-- Embedding of `tiff_do_read`: forwards to `g_input_stream_read` and
returns its value verbatim; the local `GError` (the error detail) is
discarded. -/
def tiff_do_read (s : GStream) (size : Nat) : Int :=
  (g_input_stream_read s size).1

/-- C4: with a valid backing handle, a valid stored directory and both
dimension tags present, associated-image decode selects the stored
directory, re-reads the width and height tags, and on any mismatch with
the discovery-time dimensions fails with the size-mismatch error naming
expected and actual dimensions without invoking the region decoder; when
both match it invokes the region decoder on exactly the full rectangle
`(0, 0, w, h)` and returns its result. -/
theorem c4_dimension_recheck (t : TIFFState) (img : AssocImage)
    (dest : List Nat) (env : RegionEnv) (d : TiffDir) (gotW gotH : Nat)
    (htiff : img.tiff = some t)
    (hdir : t.dirs[img.directory]? = some d)
    (hw : d.imageWidth = some gotW)
    (hh : d.imageLength = some gotH) :
    ((img.w ≠ gotW ∨ img.h ≠ gotH) →
      (get_associated_image_data img dest env).ok = false ∧
      (get_associated_image_data img dest env).regionCall = none ∧
      (get_associated_image_data img dest env).dirSelected =
        some img.directory ∧
      (get_associated_image_data img dest env).tagsRead =
        [TIFFTAG_IMAGEWIDTH, TIFFTAG_IMAGELENGTH] ∧
      (get_associated_image_data img dest env).err =
        some ("Unexpected associated image size: expected " ++
          toString img.w ++ "x" ++ toString img.h ++ ", got " ++
          toString gotW ++ "x" ++ toString gotH)) ∧
    (img.w = gotW → img.h = gotH →
      (get_associated_image_data img dest env).dirSelected =
        some img.directory ∧
      (get_associated_image_data img dest env).tagsRead =
        [TIFFTAG_IMAGEWIDTH, TIFFTAG_IMAGELENGTH] ∧
      (get_associated_image_data img dest env).regionCall =
        some (0, 0, gotW, gotH) ∧
      (get_associated_image_data img dest env).ok =
        (tiff_read_region env dest 0 0 gotW gotH).ok ∧
      (get_associated_image_data img dest env).dest =
        (tiff_read_region env dest 0 0 gotW gotH).dest ∧
      (get_associated_image_data img dest env).err =
        (tiff_read_region env dest 0 0 gotW gotH).err) := by
  simp only [get_associated_image_data, htiff, _get_associated_image_data,
    hdir, hw, hh]
  constructor
  · intro hne
    have hcond : (img.w != gotW || img.h != gotH) = true := by
      rcases hne with hx | hx <;> simp [hx]
    simp [hcond]
  · intro hweq hheq
    have hcond : (img.w != gotW || img.h != gotH) = false := by
      simp [hweq, hheq]
    simp [hcond]

/-- C4 witness: the theorem applied to a concrete matching image
(2 by 3 pixels, directory 0). -/
theorem c4_dimension_recheck_witness :
    (get_associated_image_data
        ⟨2, 3, some ⟨[⟨some 2, some 3, some 1⟩]⟩, 0⟩ [9]
        ⟨true, "", true, "", some [1, 2, 3, 4, 5, 6]⟩).regionCall =
      some (0, 0, 2, 3) ∧
    (get_associated_image_data
        ⟨2, 3, some ⟨[⟨some 2, some 3, some 1⟩]⟩, 0⟩ [9]
        ⟨true, "", true, "", some [1, 2, 3, 4, 5, 6]⟩).ok =
      (tiff_read_region ⟨true, "", true, "", some [1, 2, 3, 4, 5, 6]⟩
        [9] 0 0 2 3).ok := by
  have h := c4_dimension_recheck ⟨[⟨some 2, some 3, some 1⟩]⟩
    ⟨2, 3, some ⟨[⟨some 2, some 3, some 1⟩]⟩, 0⟩ [9]
    ⟨true, "", true, "", some [1, 2, 3, 4, 5, 6]⟩
    ⟨some 2, some 3, some 1⟩ 2 3 rfl rfl rfl rfl
  exact ⟨(h.2 rfl rfl).2.2.1, (h.2 rfl rfl).2.2.2.1⟩

/-- C5 counterexample: when the underlying stream read fails, the shim's
read callback returns -1 (the stream's error indicator), not 0, so a
negative value is returned to the decoder library. -/
theorem c5_returns_minus_one_cex :
    tiff_do_read ⟨[1, 2, 3], 0, true⟩ 2 = -1 ∧
    ((-1 : Int) < 0 ∧ (-1 : Int) ≠ 0) := by
  exact ⟨rfl, by decide⟩

/-- C5 amended: the shim's read callback returns the stream's return
value verbatim: the number of bytes actually read on success, and -1
(forwarded to the decoder library) when the stream read fails; the error
detail is discarded in both cases. -/
theorem c5_read_forwards_verbatim (s : GStream) (size : Nat) :
    (s.failing = true → tiff_do_read s size = -1) ∧
    (s.failing = false →
      tiff_do_read s size =
        ((min size (s.data.length - s.pos) : Nat) : Int) ∧
      0 ≤ tiff_do_read s size) := by
  constructor
  · intro hf
    simp [tiff_do_read, g_input_stream_read, hf]
  · intro hf
    refine ⟨by simp [tiff_do_read, g_input_stream_read, hf], ?_⟩
    simp [tiff_do_read, g_input_stream_read, hf]

/-- C5 amended witness: the theorem applied to a concrete failing stream
and to a concrete succeeding stream. -/
theorem c5_read_forwards_verbatim_witness :
    tiff_do_read ⟨[1], 0, true⟩ 2 = -1 ∧
    (tiff_do_read ⟨[1, 2, 3], 0, false⟩ 2 =
        ((min 2 ([1, 2, 3].length - 0) : Nat) : Int) ∧
      0 ≤ tiff_do_read ⟨[1, 2, 3], 0, false⟩ 2) :=
  ⟨(c5_read_forwards_verbatim ⟨[1], 0, true⟩ 2).1 rfl,
   (c5_read_forwards_verbatim ⟨[1, 2, 3], 0, false⟩ 2).2 rfl⟩

/-- C6 counterexample: two associated-image failures without the
`Can't read name associated image:` prefix: registration with a NULL
backing handle fails with no error message at all, and an on-demand
decode hitting the size-mismatch check fails with the bare size-mismatch
message, which does not begin with that prefix. -/
theorem c6_unprefixed_failures_cex :
    ((_openslide_tiff_add_associated_image_remote (fun _ => true) []
        "label" none 0 none).ok = false ∧
     (_openslide_tiff_add_associated_image_remote (fun _ => true) []
        "label" none 0 none).err = none) ∧
    ((get_associated_image_data
        ⟨10, 10, some ⟨[⟨some 11, some 10, some 1⟩]⟩, 0⟩ []
        ⟨true, "", true, "", some []⟩).ok = false ∧
     (get_associated_image_data
        ⟨10, 10, some ⟨[⟨some 11, some 10, some 1⟩]⟩, 0⟩ []
        ⟨true, "", true, "", some []⟩).err =
       some "Unexpected associated image size: expected 10x10, got 11x10" ∧
     ¬ ∃ rest : String,
       "Unexpected associated image size: expected 10x10, got 11x10" =
         "Can\x27t read label associated image: " ++ rest) := by
  refine ⟨⟨rfl, rfl⟩, rfl, rfl, ?_⟩
  rintro ⟨rest, h⟩
  have h2 := congrArg String.data h
  simp only [String.data_append] at h2
  simp at h2

/-- C6 amended: every failure of associated-image registration with a
non-NULL backing handle and no pending error carries a message beginning
with `Can't read name associated image:` for the given name; a
registration failure with a NULL handle sets no error message, and
on-demand decode failures carry the underlying error message, which never
begins with a `Can't read name associated image:` prefix. -/
theorem c6_prefix_on_construction (codecOK : Nat → Bool)
    (osr : List (String × AssocImage)) (name : String) (t : TIFFState)
    (dir : Nat) :
    ((_openslide_tiff_add_associated_image_remote codecOK osr name
        (some t) dir none).ok = false →
      ∃ rest : String,
        (_openslide_tiff_add_associated_image_remote codecOK osr name
          (some t) dir none).err =
        some ("Can\x27t read " ++ name ++ " associated image: " ++ rest)) ∧
    ((_openslide_tiff_add_associated_image_remote codecOK osr name
        none dir none).ok = false ∧
     (_openslide_tiff_add_associated_image_remote codecOK osr name
        none dir none).err = none) ∧
    (∀ (img : AssocImage) (dest : List Nat) (env : RegionEnv) (m : String),
      (get_associated_image_data img dest env).err = some m →
      ¬ ∃ nm rest : String,
        m = "Can\x27t read " ++ nm ++ " associated image: " ++ rest) := by
  refine ⟨?_, ⟨rfl, rfl⟩, ?_⟩
  · intro hfail
    unfold _openslide_tiff_add_associated_image_remote at hfail ⊢
    unfold _add_associated_image at hfail ⊢
    repeat' split <;> simp_all
  · rintro img dest env m herr ⟨nm, rest, hm⟩
    subst hm
    rcases htiff : img.tiff with _ | t2
    · simp [get_associated_image_data, htiff] at herr
    · simp only [get_associated_image_data, htiff] at herr
      unfold _get_associated_image_data tiff_read_region at herr
      repeat' split at herr
      all_goals try simp only [Option.some.injEq] at herr
      all_goals
        first
          | exact Option.noConfusion herr
          | (have h2 := congrArg String.data herr
             simp only [tagErrMsg, TIFFTAG_IMAGEWIDTH, TIFFTAG_IMAGELENGTH,
               String.data_append] at h2
             simp at h2)

/-- C6 amended witness: the theorem applied at a concrete failing
registration (directory 0 of a handle with no directories), at a concrete
NULL-handle registration, and at a concrete size-mismatch decode. -/
theorem c6_prefix_on_construction_witness :
    (∃ rest : String,
      (_openslide_tiff_add_associated_image_remote (fun _ => true) []
        "macro" (some ⟨[]⟩) 0 none).err =
      some ("Can\x27t read " ++ "macro" ++ " associated image: " ++ rest)) ∧
    ¬ ∃ nm rest : String,
      "Unexpected associated image size: expected 10x10, got 11x10" =
        "Can\x27t read " ++ nm ++ " associated image: " ++ rest :=
  ⟨(c6_prefix_on_construction (fun _ => true) [] "macro" ⟨[]⟩ 0).1 rfl,
   (c6_prefix_on_construction (fun _ => true) [] "macro" ⟨[]⟩ 0).2.2
     ⟨10, 10, some ⟨[⟨some 11, some 10, some 1⟩]⟩, 0⟩ []
     ⟨true, "", true, "", some []⟩
     "Unexpected associated image size: expected 10x10, got 11x10" rfl⟩

/-- C7: associated-image construction with a valid directory fails with
an error naming the missing tag identifier when the width (256), height
(257) or compression (259) tag is absent, fails naming the unsupported
compression code when the codec is not configured, and on success stores
the read width, height, backing handle and directory index in the
descriptor and registers it in the registry under the given name. -/
theorem c7_construction (codecOK : Nat → Bool)
    (osr : List (String × AssocImage)) (name : String) (dir : Nat)
    (t : TIFFState) (d : TiffDir)
    (hdir : t.dirs[dir]? = some d) :
    (d.imageWidth = none →
      (_add_associated_image codecOK osr name dir t).ok = false ∧
      (_add_associated_image codecOK osr name dir t).err =
        some (tagErrMsg TIFFTAG_IMAGEWIDTH) ∧
      (_add_associated_image codecOK osr name dir t).registry = osr) ∧
    (∀ w, d.imageWidth = some w → d.imageLength = none →
      (_add_associated_image codecOK osr name dir t).ok = false ∧
      (_add_associated_image codecOK osr name dir t).err =
        some (tagErrMsg TIFFTAG_IMAGELENGTH) ∧
      (_add_associated_image codecOK osr name dir t).registry = osr) ∧
    (∀ w h, d.imageWidth = some w → d.imageLength = some h →
      d.compression = none →
      (_add_associated_image codecOK osr name dir t).ok = false ∧
      (_add_associated_image codecOK osr name dir t).err =
        some (tagErrMsg TIFFTAG_COMPRESSION) ∧
      (_add_associated_image codecOK osr name dir t).registry = osr) ∧
    (∀ w h c, d.imageWidth = some w → d.imageLength = some h →
      d.compression = some c → codecOK c = false →
      (_add_associated_image codecOK osr name dir t).ok = false ∧
      (_add_associated_image codecOK osr name dir t).err =
        some ("Unsupported TIFF compression: " ++ toString c) ∧
      (_add_associated_image codecOK osr name dir t).registry = osr) ∧
    (∀ w h c, d.imageWidth = some w → d.imageLength = some h →
      d.compression = some c → codecOK c = true →
      (_add_associated_image codecOK osr name dir t).ok = true ∧
      (_add_associated_image codecOK osr name dir t).err = none ∧
      (_add_associated_image codecOK osr name dir t).registry =
        (name, ⟨w, h, some t, dir⟩) :: osr) := by
  refine ⟨?_, ?_, ?_, ?_, ?_⟩
  · intro hw
    simp [_add_associated_image, hdir, hw]
  · intro w hw hh
    simp [_add_associated_image, hdir, hw, hh]
  · intro w h hw hh hc
    simp [_add_associated_image, hdir, hw, hh, hc]
  · intro w h c hw hh hc hcodec
    simp [_add_associated_image, hdir, hw, hh, hc, hcodec]
  · intro w h c hw hh hc hcodec
    simp [_add_associated_image, hdir, hw, hh, hc, hcodec]

/-- C7 witness: the theorem applied at a concrete directory with all tags
present and a configured codec (registration succeeds and stores the
descriptor), using width 20, height 30, compression 1 under name
"thumbnail". -/
theorem c7_construction_witness :
    (_add_associated_image (fun _ => true) [] "thumbnail" 0
      ⟨[⟨some 20, some 30, some 1⟩]⟩).ok = true ∧
    (_add_associated_image (fun _ => true) [] "thumbnail" 0
      ⟨[⟨some 20, some 30, some 1⟩]⟩).err = none ∧
    (_add_associated_image (fun _ => true) [] "thumbnail" 0
      ⟨[⟨some 20, some 30, some 1⟩]⟩).registry =
      [("thumbnail", ⟨20, 30, some ⟨[⟨some 20, some 30, some 1⟩]⟩, 0⟩)] :=
  (c7_construction (fun _ => true) [] "thumbnail" 0
    ⟨[⟨some 20, some 30, some 1⟩]⟩ ⟨some 20, some 30, some 1⟩
    rfl).2.2.2.2 20 30 1 rfl rfl rfl rfl

/-- C10: with a NULL backing handle, associated-image decode returns
false leaving the destination buffer untouched, with no directory
selected, no tag read, no region-decoder call and no error object set;
and associated-image registration returns false with the registry
unchanged, no directory selected, no tag read and no error object set. -/
theorem c10_null_handle (img : AssocImage) (dest : List Nat)
    (env : RegionEnv) (codecOK : Nat → Bool)
    (osr : List (String × AssocImage)) (name : String) (dir : Nat)
    (hnull : img.tiff = none) :
    get_associated_image_data img dest env =
      ⟨false, dest, none, none, [], none⟩ ∧
    _openslide_tiff_add_associated_image_remote codecOK osr name none dir
      none = ⟨false, osr, none, none, []⟩ := by
  constructor
  · simp [get_associated_image_data, hnull]
  · rfl

/-- C10 witness: the theorem applied at a concrete NULL-handle image and
registration call. -/
theorem c10_null_handle_witness :
    get_associated_image_data ⟨4, 5, none, 2⟩ [9, 9]
        ⟨true, "", true, "", some []⟩ =
      ⟨false, [9, 9], none, none, [], none⟩ ∧
    _openslide_tiff_add_associated_image_remote (fun _ => false) []
        "label" none 3 none = ⟨false, [], none, none, []⟩ :=
  c10_null_handle ⟨4, 5, none, 2⟩ [9, 9] ⟨true, "", true, "", some []⟩
    (fun _ => false) [] "label" 3 rfl

end TiffRemote
